import Mathlib

/-!
Shallow embedding of the bo-gateway server (`src/index.js`): the credential
guard, the thread store (`getOrCreateThread`, `saveMessage`, the thread
listing query), the LLM proxy (`callLLM`) and the `POST /v1/chat`
orchestration, together with theorems settling the specification claims.

External effects are modelled by explicit parameters: the lazily created
`pg` pool is an `Option Db` value (`none` when `DATABASE_URL` is not
configured), the `uuidv4()` calls and `NOW()` timestamps are parameters,
the provider's HTTP answer is an `LLMOutcome` value, and a failing
`db.query` inside `saveMessage` is driven by explicit failure flags.
-/

namespace BoGateway

/-- A JavaScript value as it can appear in a parsed JSON request body. -/
inductive Jval where
  | jstr (s : String)
  | jnum (n : Int)
  | jbool (b : Bool)
  | jnull
  | jundef
deriving DecidableEq, Repr

/-- JavaScript truthiness of a `Jval` (`!v` is `true` exactly when this is `false`). -/
def Jval.truthy : Jval → Bool
  | .jstr s => s ≠ ""
  | .jnum n => n ≠ 0
  | .jbool b => b
  | .jnull => false
  | .jundef => false

/-- `typeof v === 'string'`. -/
def Jval.isString : Jval → Bool
  | .jstr _ => true
  | _ => false

/-- String coercion applied when a `Jval` is interpolated into a query or prompt. -/
def Jval.asString : Jval → String
  | .jstr s => s
  | .jnum n => toString n
  | .jbool b => if b then "true" else "false"
  | .jnull => "null"
  | .jundef => "undefined"

/-- JavaScript truthiness of an optional string (`undefined` and `""` are falsy). -/
def jsTruthy : Option String → Bool
  | some s => s ≠ ""
  | none => false

/-- The JavaScript expression `o || d` for an optional string `o`. -/
def jsOr (o : Option String) (d : String) : String :=
  match o with
  | some s => if s = "" then d else s
  | none => d

/-- A row of the `threads` table. -/
structure ThreadRow where
  id : String
  user_email : String
  title : Option String
  created_at : Nat
  updated_at : Nat
deriving DecidableEq, Repr

/-- A row of the `messages` table. -/
structure MessageRow where
  id : String
  thread_id : String
  role : String
  content : String
  created_at : Nat
deriving DecidableEq, Repr

/-- The relational store reached through the `pg` pool. -/
structure Db where
  threads : List ThreadRow
  messages : List MessageRow
deriving DecidableEq, Repr

/-- A `{role, content}` record as held in conversation history. -/
structure Msg where
  role : String
  content : String
deriving DecidableEq, Repr

/-- Comparison used by `ORDER BY created_at ASC` on `messages`. -/
def msgCreatedLe (a b : MessageRow) : Prop :=
  a.created_at ≤ b.created_at

instance : DecidableRel msgCreatedLe :=
  fun a b => inferInstanceAs (Decidable (a.created_at ≤ b.created_at))

instance : IsTotal MessageRow msgCreatedLe :=
  ⟨fun a b => Nat.le_total a.created_at b.created_at⟩

instance : IsTrans MessageRow msgCreatedLe :=
  ⟨fun _ _ _ h1 h2 => Nat.le_trans h1 h2⟩

/-- Comparison used by `ORDER BY updated_at DESC` on `threads`. -/
def threadUpdatedDesc (a b : ThreadRow) : Prop :=
  b.updated_at ≤ a.updated_at

instance : DecidableRel threadUpdatedDesc :=
  fun a b => inferInstanceAs (Decidable (b.updated_at ≤ a.updated_at))

instance : IsTotal ThreadRow threadUpdatedDesc :=
  ⟨fun a b => Nat.le_total b.updated_at a.updated_at⟩

instance : IsTrans ThreadRow threadUpdatedDesc :=
  ⟨fun _ _ _ h1 h2 => Nat.le_trans h2 h1⟩

/-- `SELECT role, content FROM messages WHERE thread_id = $1 ORDER BY created_at ASC`,
before the column projection.  `ORDER BY` is modelled as a sort of the filtered
rows (SQL fixes no order among equal keys; this sort picks one such order). -/
def selectThreadMessages (d : Db) (t : String) : List MessageRow :=
  List.insertionSort msgCreatedLe (d.messages.filter (fun m => m.thread_id = t))

/-- `SELECT ... FROM threads WHERE user_email = $1 ORDER BY updated_at DESC LIMIT $2`,
before the column projection. -/
def selectThreadsForUser (d : Db) (u : String) (n : Nat) : List ThreadRow :=
  (List.insertionSort threadUpdatedDesc (d.threads.filter (fun t => t.user_email = u))).take n

/-- Result of `getOrCreateThread`: the resolved identifier and the
`{role, content}` history rows. -/
structure GocOut where
  threadId : String
  messages : List Msg
deriving DecidableEq, Repr

/-- `getOrCreateThread(threadId, userEmail)`. `db` is the pool (`none` in degraded
mode), `freshId` the value `uuidv4()` would produce, `now` the value of `NOW()`.
Returns the result together with the store state after the call. -/
def getOrCreateThread (db : Option Db) (freshId : String) (now : Nat)
    (threadId : Option String) (userEmail : String) : GocOut × Option Db :=
  match db with
  | none => (⟨jsOr threadId freshId, []⟩, none)
  | some d =>
    if jsTruthy threadId && d.threads.any (fun r => r.id = threadId.getD "") then
      (⟨threadId.getD "",
        (selectThreadMessages d (threadId.getD "")).map (fun m => ⟨m.role, m.content⟩)⟩,
       some d)
    else
      let newThreadId := jsOr threadId freshId
      (⟨newThreadId, []⟩,
       some (if d.threads.any (fun r => r.id = newThreadId) then d
             else { d with threads :=
               d.threads ++ [⟨newThreadId, userEmail, none, now, now⟩] }))

/-- State and error outcome of one `saveMessage` call. -/
structure SaveOut where
  db : Option Db
  err : Option String
deriving DecidableEq, Repr

/-- `saveMessage(threadId, role, content)`. `msgId` is the `uuidv4()` value,
`now` the `NOW()` value; `failInsert` / `failUpdate` drive a thrown `db.query`
error on the `INSERT` resp. the `UPDATE` statement. When the pool is `none`
the function returns before any query. -/
def saveMessage (db : Option Db) (failInsert failUpdate : Bool)
    (msgId : String) (now : Nat) (threadId role content : String) : SaveOut :=
  match db with
  | none => ⟨none, none⟩
  | some d =>
    if failInsert then ⟨some d, some "insert failed"⟩
    else
      let d1 : Db := { d with messages :=
        d.messages ++ [⟨msgId, threadId, role, content, now⟩] }
      if failUpdate then ⟨some d1, some "update failed"⟩
      else ⟨some { d1 with threads := (d1.threads.map
        (fun t => if t.id = threadId then { t with updated_at := now } else t)) }, none⟩

/-- Outcome of the `authenticateRequest` middleware. -/
inductive AuthResult where
  | unauthenticated
  | forbidden
  | allowed
deriving DecidableEq, Repr

/-- `authenticateRequest`: `secret` is `CONFIG.BOCHAT_API_KEY` (possibly
`undefined`), `apiKey` the `x-bochat-api-key` header value. `!apiKey` is
JavaScript falsiness, `apiKey !== CONFIG.BOCHAT_API_KEY` is strict
inequality between a string and a possibly-`undefined` value. -/
def authenticateRequest (secret : Option String) (apiKey : Option String) : AuthResult :=
  if ¬ jsTruthy apiKey then .unauthenticated
  else if apiKey ≠ secret then .forbidden
  else .allowed

/-- One `{role, content}` entry of the provider request: `user` stays `user`,
every other role becomes `assistant`. -/
def roleMap (m : Msg) : Msg :=
  ⟨if m.role = "user" then "user" else "assistant", m.content⟩

/-- The `messages` array placed in the provider fetch body. -/
def apiMessagesOf (ms : List Msg) : List Msg :=
  ms.map roleMap

/-- One element of the provider response's `content` array; `text` may be absent. -/
structure Segment where
  text : Option String
deriving DecidableEq, Repr

/-- The provider's answer to the fetch: a non-success HTTP status with a raw
body, or a success whose `content` array may itself be absent. -/
inductive LLMOutcome where
  | httpError (status : Nat) (body : String)
  | success (content : Option (List Segment))
deriving DecidableEq, Repr

/-- The fixed fallback reply substituted for a missing or empty text segment. -/
def fallbackReply : String := "I hit a snag processing that. Try again?"

/-- `data.content?.[0]?.text || "I hit a snag processing that. Try again?"`. -/
def extractReply (content : Option (List Segment)) : String :=
  match content with
  | none => fallbackReply
  | some segs =>
    match segs.head? with
    | none => fallbackReply
    | some seg =>
      match seg.text with
      | none => fallbackReply
      | some t => if t = "" then fallbackReply else t

/-- Result of `callLLM`: the returned reply or thrown error, and the `messages`
array of the fetch body when the fetch was reached (`none` when the missing
credential aborted the call first). -/
structure LLMCall where
  result : Except String String
  sent : Option (List Msg)
deriving Repr

/-- `callLLM(messages, userEmail)`. `llmKey` is `CONFIG.LLM_API_KEY`; `outcome`
is the provider's HTTP answer. -/
def callLLM (llmKey : Option String) (outcome : LLMOutcome) (messages : List Msg) :
    LLMCall :=
  if ¬ jsTruthy llmKey then ⟨.error "LLM API key not configured", none⟩
  else
    let apiMessages := apiMessagesOf messages
    match outcome with
    | .httpError status _ => ⟨.error ("LLM API error: " ++ toString status), some apiMessages⟩
    | .success content => ⟨.ok (extractReply content), some apiMessages⟩

/-- The parsed body of a `POST /v1/chat` request. `threadId` is kept as an
optional string (absent or a string value). -/
structure ChatBody where
  userEmail : Jval
  message : Jval
  threadId : Option String
deriving DecidableEq, Repr

/-- The JSON response of the chat route: `{reply, threadId}` or `{error}` with
an HTTP status. -/
inductive ChatResponse where
  | ok (reply threadId : String)
  | err (status : Nat) (msg : String)
deriving DecidableEq, Repr

/-- The generic message of the chat route's catch-all 500 response. -/
def genericChatError : String := "Something went wrong on my end. Try again in a sec."

/-- Observable outcome of one `POST /v1/chat` request: the response, the store
state afterwards, the provider-bound `messages` array when the fetch happened,
and whether execution reached the thread store. -/
structure ChatOutcome where
  response : ChatResponse
  db : Option Db
  llmSent : Option (List Msg)
  storeCalled : Bool
deriving DecidableEq, Repr

/-- The `POST /v1/chat` route: `authenticateRequest`, field validation,
`getOrCreateThread`, `callLLM` on the prior history plus the new user turn,
then the two `saveMessage` calls; every throw inside the `try` block is
answered by the catch-all 500 with `genericChatError`. -/
def chatHandler (secret apiKeyHeader : Option String) (body : ChatBody)
    (db : Option Db) (freshId : String) (now : Nat)
    (llmKey : Option String) (outcome : LLMOutcome)
    (userMsgId asstMsgId : String)
    (saveUserFailIns saveUserFailUpd saveAsstFailIns saveAsstFailUpd : Bool) :
    ChatOutcome :=
  match authenticateRequest secret apiKeyHeader with
  | .unauthenticated => ⟨.err 401 "Missing X-BOCHAT-API-KEY header", db, none, false⟩
  | .forbidden => ⟨.err 403 "Invalid API key", db, none, false⟩
  | .allowed =>
    if ¬ (body.message.truthy && body.message.isString) then
      ⟨.err 400 "message is required and must be a string", db, none, false⟩
    else if ¬ body.userEmail.truthy then
      ⟨.err 400 "userEmail is required", db, none, false⟩
    else
      let msg := body.message.asString
      let goc := getOrCreateThread db freshId now body.threadId body.userEmail.asString
      let conversationHistory := goc.1.messages ++ [⟨"user", msg⟩]
      let call := callLLM llmKey outcome conversationHistory
      match call.result with
      | .error _ => ⟨.err 500 genericChatError, goc.2, call.sent, true⟩
      | .ok reply =>
        let s1 := saveMessage goc.2 saveUserFailIns saveUserFailUpd
          userMsgId now goc.1.threadId "user" msg
        match s1.err with
        | some _ => ⟨.err 500 genericChatError, s1.db, call.sent, true⟩
        | none =>
          let s2 := saveMessage s1.db saveAsstFailIns saveAsstFailUpd
            asstMsgId now goc.1.threadId "assistant" reply
          match s2.err with
          | some _ => ⟨.err 500 genericChatError, s2.db, call.sent, true⟩
          | none => ⟨.ok reply goc.1.threadId, s2.db, call.sent, true⟩

/-- A `{id, title, created_at, updated_at}` entry of the thread-list response. -/
structure ThreadListItem where
  id : String
  title : Option String
  created_at : Nat
  updated_at : Nat
deriving DecidableEq, Repr

/-- The JSON response of `GET /v1/threads`. -/
inductive ThreadsResponse where
  | ok (threads : List ThreadListItem)
  | err (status : Nat) (msg : String)
deriving DecidableEq, Repr

/-- The `GET /v1/threads` route. `userEmail` is the raw query parameter;
`limit` is the parsed `parseInt` value of the query parameter when one was
supplied (the destructuring default 20 applies when it is absent). -/
def listThreadsHandler (secret apiKeyHeader : Option String) (db : Option Db)
    (userEmail : Option String) (limit : Option Nat) : ThreadsResponse :=
  match authenticateRequest secret apiKeyHeader with
  | .unauthenticated => .err 401 "Missing X-BOCHAT-API-KEY header"
  | .forbidden => .err 403 "Invalid API key"
  | .allowed =>
    match db with
    | none => .ok []
    | some d =>
      if ¬ jsTruthy userEmail then .ok []
      else
        .ok ((selectThreadsForUser d (userEmail.getD "") (limit.getD 20)).map
          (fun t => ⟨t.id, t.title, t.created_at, t.updated_at⟩))

/-- The messages stored in a possibly-absent store. -/
def dbMessages (db : Option Db) : List MessageRow :=
  match db with
  | none => []
  | some d => d.messages

/-! ### Helper lemmas -/

/-- `getOrCreateThread` never touches the `messages` table. -/
theorem getOrCreateThread_messages (d : Db) (freshId : String) (now : Nat)
    (tid : Option String) (u : String) :
    dbMessages (getOrCreateThread (some d) freshId now tid u).2 = d.messages := by
  simp only [getOrCreateThread]
  by_cases h : (jsTruthy tid && d.threads.any (fun r => r.id = tid.getD "")) = true
  · simp [h, dbMessages]
  · simp only [h, if_false, Bool.false_eq_true]
    split <;> simp [dbMessages]

/-- A configured store stays configured across `getOrCreateThread`. -/
theorem getOrCreateThread_db_some (d : Db) (freshId : String) (now : Nat)
    (tid : Option String) (u : String) :
    ∃ d2, (getOrCreateThread (some d) freshId now tid u).2 = some d2 := by
  simp only [getOrCreateThread]
  by_cases h : (jsTruthy tid && d.threads.any (fun r => r.id = tid.getD "")) = true
  · exact ⟨d, by simp [h]⟩
  · simp only [h, if_false, Bool.false_eq_true]
    split <;> exact ⟨_, rfl⟩

/-- Against a configured store, `saveMessage` reports an error exactly when one
of its two queries fails. -/
theorem saveMessage_err_config (d : Db) (f1 f2 : Bool) (msgId : String) (now : Nat)
    (t r c : String) :
    (saveMessage (some d) f1 f2 msgId now t r c).err.isSome = (f1 || f2) := by
  cases f1 <;> cases f2 <;> simp [saveMessage]

/-! ### Claim C2 -/

/-- Claim C2, counterexample: with the store unconfigured and a supplied
`threadId` of `"t1"`, `getOrCreateThread` returns the supplied identifier
`"t1"`, not the freshly fabricated identifier (here `"FRESH"`), so the result
is not a fresh, newly fabricated thread identifier. -/
theorem degraded_getOrCreateThread_returns_supplied_id :
    (getOrCreateThread none "FRESH" 0 (some "t1") "u@x").1.threadId = "t1"
    ∧ ("t1" : String) ≠ "FRESH" := by
  exact ⟨rfl, by decide⟩

/-- Claim C2, amended: in degraded mode (store unconfigured) `getOrCreateThread`
never fails and returns an empty history together with the supplied thread
identifier when a non-empty one was given, and a freshly fabricated identifier
only otherwise; `saveMessage` is a silent no-op regardless of its failure
flags. -/
theorem degraded_mode_behaviour (freshId : String) (now : Nat) (tid : Option String)
    (u : String) (f1 f2 : Bool) (msgId : String) (now2 : Nat) (t r c : String) :
    getOrCreateThread none freshId now tid u = (⟨jsOr tid freshId, []⟩, none)
    ∧ saveMessage none f1 f2 msgId now2 t r c = ⟨none, none⟩ :=
  ⟨rfl, rfl⟩

/-! ### Claim C9 -/

/-- Claim C9, counterexample: with the server secret unconfigured, a request
carrying the auth header with the empty-string value is rejected with 401
(the header is JavaScript-falsy), not 403 as the claim states for every
carried value. -/
theorem unconfigured_secret_empty_header_401 :
    authenticateRequest none (some "") = .unauthenticated
    ∧ AuthResult.unauthenticated ≠ AuthResult.forbidden := by
  exact ⟨rfl, by decide⟩

/-- Claim C9, amended: if the server secret is unconfigured, no request ever
authenticates: every request carrying the auth header with a non-empty value
is rejected with 403, and a request without the header or with an
empty-string header value is rejected with 401. -/
theorem unconfigured_secret_rejects_all :
    (∀ v : String, v ≠ "" → authenticateRequest none (some v) = .forbidden)
    ∧ authenticateRequest none none = .unauthenticated
    ∧ authenticateRequest none (some "") = .unauthenticated
    ∧ ∀ h : Option String, authenticateRequest none h ≠ .allowed := by
  refine ⟨?_, rfl, rfl, ?_⟩
  · intro v hv
    simp [authenticateRequest, jsTruthy, hv]
  · intro h
    match h with
    | none => simp [authenticateRequest, jsTruthy]
    | some v =>
      by_cases hv : v = ""
      · simp [authenticateRequest, jsTruthy, hv]
      · simp [authenticateRequest, jsTruthy, hv]

/-- Witness for the amended C9 theorem at the concrete header value `"x"`. -/
theorem unconfigured_secret_rejects_all_witness :
    ("x" : String) ≠ "" ∧ authenticateRequest none (some "x") = .forbidden :=
  ⟨by decide, unconfigured_secret_rejects_all.1 "x" (by decide)⟩

/-! ### Claim C10 -/

/-- Claim C10: on a successful provider response whose first content segment
carries the empty string as its text, `callLLM` returns the fixed fallback
reply (the `||` fallback fires on the empty string, not only on an absent
segment). -/
theorem empty_first_segment_gives_fallback (llmKey : Option String) (seg : Segment)
    (rest : List Segment) (msgs : List Msg)
    (hkey : jsTruthy llmKey = true) (htext : seg.text = some "") :
    (callLLM llmKey (.success (some (seg :: rest))) msgs).result = .ok fallbackReply := by
  simp [callLLM, hkey, extractReply, htext]

/-- Witness for C10 at a concrete provider response with an empty first text
segment. -/
theorem empty_first_segment_gives_fallback_witness :
    jsTruthy (some "k") = true ∧ Segment.text ⟨some ""⟩ = some ""
    ∧ (callLLM (some "k") (.success (some [⟨some ""⟩]))
        [⟨"user", "hi"⟩]).result = .ok fallbackReply :=
  ⟨by decide, rfl,
    empty_first_segment_gives_fallback (some "k") ⟨some ""⟩ [] [⟨"user", "hi"⟩] (by decide) rfl⟩

/-! ### Claim C6 -/

/-- Claim C6, counterexample: an auth header that is present but carries the
empty string (which differs from the configured secret `"k"`) is answered
with 401, not with the 403 the claim requires for every present-but-mismatched
header: the middleware treats the JavaScript-falsy empty string like a
missing header. -/
theorem present_empty_header_gets_401 :
    (chatHandler (some "k") (some "") ⟨.jstr "u@x", .jstr "hi", none⟩ none "F" 0
        (some "l") (.success (some [⟨some "r"⟩])) "m1" "m2" false false false false).response
      = .err 401 "Missing X-BOCHAT-API-KEY header"
    ∧ ("" : String) ≠ "k"
    ∧ (chatHandler (some "k") (some "") ⟨.jstr "u@x", .jstr "hi", none⟩ none "F" 0
        (some "l") (.success (some [⟨some "r"⟩])) "m1" "m2" false false false false).response
      ≠ .err 403 "Invalid API key" := by
  refine ⟨rfl, by decide, by decide⟩

/-- Claim C6, amended: a request with the auth header missing, or present with
the empty-string value, is answered 401 with no store or LLM access; a request
with a non-empty header value different from the server secret is answered 403
with no store or LLM access; a non-empty header value equal to the secret
passes the middleware. -/
theorem auth_gate (secret : Option String) (v : String) (body : ChatBody)
    (db : Option Db) (freshId : String) (now : Nat) (llmKey : Option String)
    (outcome : LLMOutcome) (uMsgId aMsgId : String) (f1 f2 f3 f4 : Bool) :
    chatHandler secret none body db freshId now llmKey outcome uMsgId aMsgId f1 f2 f3 f4
      = ⟨.err 401 "Missing X-BOCHAT-API-KEY header", db, none, false⟩
    ∧ chatHandler secret (some "") body db freshId now llmKey outcome uMsgId aMsgId f1 f2 f3 f4
      = ⟨.err 401 "Missing X-BOCHAT-API-KEY header", db, none, false⟩
    ∧ (v ≠ "" → some v ≠ secret →
        chatHandler secret (some v) body db freshId now llmKey outcome uMsgId aMsgId f1 f2 f3 f4
          = ⟨.err 403 "Invalid API key", db, none, false⟩)
    ∧ (v ≠ "" → some v = secret → authenticateRequest secret (some v) = .allowed) := by
  refine ⟨?_, ?_, ?_, ?_⟩
  · simp [chatHandler, authenticateRequest, jsTruthy]
  · simp [chatHandler, authenticateRequest, jsTruthy]
  · intro hv hne
    simp [chatHandler, authenticateRequest, jsTruthy, hv, hne]
  · intro hv he
    simp [authenticateRequest, jsTruthy, hv, he]

/-- Witness for the amended C6 theorem: a concrete mismatched non-empty header
is answered 403 and a matching one passes. -/
theorem auth_gate_witness :
    ("w" : String) ≠ "" ∧ (some "w" : Option String) ≠ some "k"
    ∧ (chatHandler (some "k") (some "w") ⟨.jstr "u", .jstr "m", none⟩ none "F" 0
        (some "l") (.success none) "a" "b" false false false false)
      = ⟨.err 403 "Invalid API key", none, none, false⟩
    ∧ authenticateRequest (some "k") (some "k") = .allowed := by
  refine ⟨by decide, by decide, ?_, ?_⟩
  · exact (auth_gate (some "k") "w" ⟨.jstr "u", .jstr "m", none⟩ none "F" 0
      (some "l") (.success none) "a" "b" false false false false).2.2.1 (by decide) (by decide)
  · exact (auth_gate (some "k") "k" ⟨.jstr "u", .jstr "m", none⟩ none "F" 0
      (some "l") (.success none) "a" "b" false false false false).2.2.2 (by decide) rfl

/-! ### Claim C7 -/

/-- Claim C7: past authentication, a chat body without a truthy string
`message` is answered 400 with the message-field error, a body with a valid
`message` but without a truthy `userEmail` is answered 400 with the
email-field error, both before any store or LLM access and leaving the store
untouched; a body with both fields valid passes validation and reaches the
thread store. -/
theorem chat_validation (secret header : Option String) (body : ChatBody)
    (db : Option Db) (freshId : String) (now : Nat) (llmKey : Option String)
    (outcome : LLMOutcome) (uMsgId aMsgId : String) (f1 f2 f3 f4 : Bool)
    (hauth : authenticateRequest secret header = .allowed) :
    ((body.message.truthy && body.message.isString) = false →
      chatHandler secret header body db freshId now llmKey outcome uMsgId aMsgId f1 f2 f3 f4
        = ⟨.err 400 "message is required and must be a string", db, none, false⟩)
    ∧ ((body.message.truthy && body.message.isString) = true → body.userEmail.truthy = false →
      chatHandler secret header body db freshId now llmKey outcome uMsgId aMsgId f1 f2 f3 f4
        = ⟨.err 400 "userEmail is required", db, none, false⟩)
    ∧ ((body.message.truthy && body.message.isString) = true → body.userEmail.truthy = true →
      (chatHandler secret header body db freshId now llmKey outcome uMsgId aMsgId
          f1 f2 f3 f4).storeCalled = true) := by
  refine ⟨?_, ?_, ?_⟩
  · intro hm
    simp [chatHandler, hauth, hm]
  · intro hm hu
    simp [chatHandler, hauth, hm, hu]
  · intro hm hu
    simp only [chatHandler, hauth, hm, hu, Bool.true_and, Bool.and_self, not_true_eq_false,
      if_false, Bool.not_true, ite_false, Bool.false_eq_true, not_false_eq_true, ite_true]
    split
    · rfl
    · split
      · rfl
      · split
        · rfl
        · rfl

/-- Witness for C7 at concrete invalid and valid bodies. -/
theorem chat_validation_witness :
    (chatHandler (some "k") (some "k") ⟨.jstr "u@x", .jstr "", none⟩ none "F" 0
        (some "l") (.success none) "a" "b" false false false false)
      = ⟨.err 400 "message is required and must be a string", none, none, false⟩
    ∧ (chatHandler (some "k") (some "k") ⟨.jnull, .jstr "hi", none⟩ none "F" 0
        (some "l") (.success none) "a" "b" false false false false)
      = ⟨.err 400 "userEmail is required", none, none, false⟩
    ∧ (chatHandler (some "k") (some "k") ⟨.jstr "u@x", .jstr "hi", none⟩ none "F" 0
        (some "l") (.success none) "a" "b" false false false false).storeCalled = true := by
  refine ⟨?_, ?_, ?_⟩
  · exact (chat_validation (some "k") (some "k") ⟨.jstr "u@x", .jstr "", none⟩ none "F" 0
      (some "l") (.success none) "a" "b" false false false false rfl).1 (by decide)
  · exact (chat_validation (some "k") (some "k") ⟨.jnull, .jstr "hi", none⟩ none "F" 0
      (some "l") (.success none) "a" "b" false false false false rfl).2.1 (by decide) (by decide)
  · exact (chat_validation (some "k") (some "k") ⟨.jstr "u@x", .jstr "hi", none⟩ none "F" 0
      (some "l") (.success none) "a" "b" false false false false rfl).2.2 (by decide) (by decide)

/-! ### Claim C3 -/

/-- Claim C3: when the provider answers with a non-success HTTP status — for
every status and every raw provider body — the chat route responds 500 with
the fixed generic error message (which is independent of the provider payload,
so the raw payload is never surfaced), and the `messages` table is left
unchanged. -/
theorem upstream_error_500_no_messages (secret header : Option String) (body : ChatBody)
    (db : Option Db) (freshId : String) (now : Nat) (llmKey : Option String)
    (status : Nat) (pbody : String) (uMsgId aMsgId : String) (f1 f2 f3 f4 : Bool)
    (hauth : authenticateRequest secret header = .allowed)
    (hm : (body.message.truthy && body.message.isString) = true)
    (hu : body.userEmail.truthy = true)
    (hkey : jsTruthy llmKey = true) :
    (chatHandler secret header body db freshId now llmKey (.httpError status pbody)
        uMsgId aMsgId f1 f2 f3 f4).response = .err 500 genericChatError
    ∧ dbMessages (chatHandler secret header body db freshId now llmKey
        (.httpError status pbody) uMsgId aMsgId f1 f2 f3 f4).db = dbMessages db := by
  have hred : chatHandler secret header body db freshId now llmKey (.httpError status pbody)
      uMsgId aMsgId f1 f2 f3 f4
      = ⟨.err 500 genericChatError,
         (getOrCreateThread db freshId now body.threadId body.userEmail.asString).2,
         some (apiMessagesOf
           ((getOrCreateThread db freshId now body.threadId body.userEmail.asString).1.messages
             ++ [⟨"user", body.message.asString⟩])), true⟩ := by
    simp [chatHandler, hauth, hm, hu, callLLM, hkey]
  rw [hred]
  refine ⟨rfl, ?_⟩
  match db with
  | none => rfl
  | some d => exact getOrCreateThread_messages d freshId now body.threadId body.userEmail.asString

/-- Witness for C3 at a concrete request against a store holding one thread
and one message. -/
theorem upstream_error_500_no_messages_witness :
    (chatHandler (some "s") (some "s") ⟨.jstr "u@x", .jstr "hi", some "t1"⟩
        (some ⟨[⟨"t1", "u@x", none, 0, 0⟩], [⟨"i1", "t1", "user", "a", 1⟩]⟩) "F" 5
        (some "l") (.httpError 429 "raw provider body") "m1" "m2" false false false false).response
      = .err 500 genericChatError
    ∧ dbMessages (chatHandler (some "s") (some "s") ⟨.jstr "u@x", .jstr "hi", some "t1"⟩
        (some ⟨[⟨"t1", "u@x", none, 0, 0⟩], [⟨"i1", "t1", "user", "a", 1⟩]⟩) "F" 5
        (some "l") (.httpError 429 "raw provider body") "m1" "m2" false false false false).db
      = dbMessages (some ⟨[⟨"t1", "u@x", none, 0, 0⟩], [⟨"i1", "t1", "user", "a", 1⟩]⟩) :=
  upstream_error_500_no_messages (some "s") (some "s") ⟨.jstr "u@x", .jstr "hi", some "t1"⟩
    (some ⟨[⟨"t1", "u@x", none, 0, 0⟩], [⟨"i1", "t1", "user", "a", 1⟩]⟩) "F" 5
    (some "l") 429 "raw provider body" "m1" "m2" false false false false
    rfl (by decide) (by decide) (by decide)

/-! ### Claim C5 -/

/-- Claim C5: whenever the chat route reaches the provider fetch, the
`messages` array it sends is the role-mapped image of the thread's prior
persisted history followed by the new user message as the final entry; the
role mapping keeps `user` and collapses every other role to `assistant`. -/
theorem chat_sends_prior_history_then_user (secret header : Option String) (body : ChatBody)
    (db : Option Db) (freshId : String) (now : Nat) (llmKey : Option String)
    (outcome : LLMOutcome) (uMsgId aMsgId : String) (f1 f2 f3 f4 : Bool)
    (hauth : authenticateRequest secret header = .allowed)
    (hm : (body.message.truthy && body.message.isString) = true)
    (hu : body.userEmail.truthy = true)
    (hkey : jsTruthy llmKey = true) :
    (chatHandler secret header body db freshId now llmKey outcome uMsgId aMsgId
        f1 f2 f3 f4).llmSent
      = some (apiMessagesOf
          ((getOrCreateThread db freshId now body.threadId body.userEmail.asString).1.messages
            ++ [⟨"user", body.message.asString⟩]))
    ∧ ∀ ms : List Msg,
        apiMessagesOf (ms ++ [⟨"user", body.message.asString⟩])
          = ms.map (fun m => ⟨if m.role = "user" then "user" else "assistant", m.content⟩)
            ++ [⟨"user", body.message.asString⟩] := by
  refine ⟨?_, ?_⟩
  · simp only [chatHandler, hauth, hm, hu, callLLM, hkey, Bool.true_and, Bool.and_self,
      not_true_eq_false, if_false, ite_false, Bool.false_eq_true, not_false_eq_true, ite_true]
    match outcome with
    | .httpError status pbody => rfl
    | .success content =>
      split
      · rfl
      · split
        · rfl
        · split
          · rfl
          · rfl
  · intro ms
    simp [apiMessagesOf, roleMap]

/-- Witness for C5: a thread with prior history `[user:"a", assistant:"b"]`
and new message `"c"` makes the route send the provider the three-entry
sequence `[user:"a", assistant:"b", user:"c"]`. -/
theorem chat_sends_prior_history_then_user_witness :
    (chatHandler (some "s") (some "s") ⟨.jstr "u@x", .jstr "c", some "t1"⟩
        (some ⟨[⟨"t1", "u@x", none, 0, 0⟩],
               [⟨"i1", "t1", "user", "a", 1⟩, ⟨"i2", "t1", "assistant", "b", 2⟩]⟩) "F" 5
        (some "l") (.success (some [⟨some "reply"⟩])) "m1" "m2" false false false false).llmSent
      = some [⟨"user", "a"⟩, ⟨"assistant", "b"⟩, ⟨"user", "c"⟩] := by
  have h := (chat_sends_prior_history_then_user (some "s") (some "s")
    ⟨.jstr "u@x", .jstr "c", some "t1"⟩
    (some ⟨[⟨"t1", "u@x", none, 0, 0⟩],
           [⟨"i1", "t1", "user", "a", 1⟩, ⟨"i2", "t1", "assistant", "b", 2⟩]⟩) "F" 5
    (some "l") (.success (some [⟨some "reply"⟩])) "m1" "m2" false false false false
    rfl (by decide) (by decide) (by decide)).1
  rw [h]
  rfl

/-! ### Claim C1 -/

/-- Claim C1, counterexample: against a configured store, with authentication,
validation and the LLM call all succeeding (computed reply `"yo"`, thread
identifier `"T1"`), a failing persist write makes the route answer 500 with
the generic error — the computed reply is not returned. The `saveMessage`
throw is caught by the handler's catch-all, which does not distinguish
persistence errors from any other failure. -/
theorem persist_failure_drops_reply :
    (chatHandler (some "s") (some "s") ⟨.jstr "u@x", .jstr "hi", none⟩ (some ⟨[], []⟩) "T1" 0
        (some "k") (.success (some [⟨some "yo"⟩])) "m1" "m2" true false false false).response
      = .err 500 genericChatError
    ∧ (chatHandler (some "s") (some "s") ⟨.jstr "u@x", .jstr "hi", none⟩ (some ⟨[], []⟩) "T1" 0
        (some "k") (.success (some [⟨some "yo"⟩])) "m1" "m2" true false false false).response
      ≠ .ok "yo" "T1" := by
  refine ⟨rfl, by decide⟩

/-- Claim C1, amended: after a successful LLM call, persistence being
unavailable because the store is unconfigured leaves the reply intact — the
two `saveMessage` calls return without touching anything and the client gets
`{reply, threadId}`; but if a configured store's persist write throws, the
catch-all answers 500 with the generic error and the computed reply is lost. -/
theorem chat_after_success_persistence (secret header : Option String) (body : ChatBody)
    (d : Db) (freshId : String) (now : Nat) (llmKey : Option String)
    (content : Option (List Segment)) (uMsgId aMsgId : String) (f1 f2 f3 f4 : Bool)
    (hauth : authenticateRequest secret header = .allowed)
    (hm : (body.message.truthy && body.message.isString) = true)
    (hu : body.userEmail.truthy = true)
    (hkey : jsTruthy llmKey = true)
    (hfail : (f1 || f2 || f3 || f4) = true) :
    (chatHandler secret header body none freshId now llmKey (.success content)
        uMsgId aMsgId f1 f2 f3 f4).response
      = .ok (extractReply content) (jsOr body.threadId freshId)
    ∧ (chatHandler secret header body (some d) freshId now llmKey (.success content)
        uMsgId aMsgId f1 f2 f3 f4).response = .err 500 genericChatError := by
  constructor
  · simp [chatHandler, hauth, hm, hu, callLLM, hkey, getOrCreateThread, saveMessage]
  · obtain ⟨d2, hd2⟩ :=
      getOrCreateThread_db_some d freshId now body.threadId body.userEmail.asString
    simp only [chatHandler, hauth, hm, hu, callLLM, hkey, Bool.true_and, Bool.and_self,
      not_true_eq_false, if_false, ite_false, Bool.false_eq_true, not_false_eq_true, ite_true]
    rw [hd2]
    cases f1 <;> cases f2 <;> cases f3 <;> cases f4 <;>
      simp_all [saveMessage]

/-- Witness for the amended C1 theorem: in degraded mode the reply survives;
with a configured store and a failing assistant-message insert the route
answers 500. -/
theorem chat_after_success_persistence_witness :
    (chatHandler (some "s") (some "s") ⟨.jstr "u@x", .jstr "hi", none⟩ none "T1" 0
        (some "k") (.success (some [⟨some "yo"⟩])) "m1" "m2" false false true false).response
      = .ok "yo" "T1"
    ∧ (chatHandler (some "s") (some "s") ⟨.jstr "u@x", .jstr "hi", none⟩ (some ⟨[], []⟩) "T1" 0
        (some "k") (.success (some [⟨some "yo"⟩])) "m1" "m2" false false true false).response
      = .err 500 genericChatError :=
  chat_after_success_persistence (some "s") (some "s") ⟨.jstr "u@x", .jstr "hi", none⟩
    ⟨[], []⟩ "T1" 0 (some "k") (some [⟨some "yo"⟩]) "m1" "m2" false false true false
    rfl (by decide) (by decide) (by decide) (by decide)

/-! ### Claim C4 -/

/-- Claim C4: with the store available, a supplied thread identifier that
resolves to an existing row is answered with that same identifier and the
thread's full message history — a permutation-free projection of exactly the
thread's rows, ordered ascending by creation time — leaving the store
unchanged; an absent or unresolved identifier leads to a new thread row
associated with `userEmail` (the identifier is generated only when none was
supplied) with an empty history, and an insert that collides with an existing
identifier is a no-op, not an error. -/
theorem getOrCreateThread_store (d : Db) (freshId : String) (now : Nat)
    (tid : Option String) (userEmail : String) :
    (∀ t : String, tid = some t → t ≠ "" →
      d.threads.any (fun r => r.id = t) = true →
      getOrCreateThread (some d) freshId now tid userEmail
        = (⟨t, (selectThreadMessages d t).map (fun m => ⟨m.role, m.content⟩)⟩, some d)
      ∧ (selectThreadMessages d t).Pairwise (fun a b => a.created_at ≤ b.created_at)
      ∧ (selectThreadMessages d t).Perm (d.messages.filter (fun m => m.thread_id = t)))
    ∧ (¬ (jsTruthy tid = true ∧ d.threads.any (fun r => r.id = tid.getD "") = true) →
      getOrCreateThread (some d) freshId now tid userEmail
        = (⟨jsOr tid freshId, []⟩,
           some (if d.threads.any (fun r => r.id = jsOr tid freshId) then d
                 else { d with threads :=
                   d.threads ++ [⟨jsOr tid freshId, userEmail, none, now, now⟩] }))) := by
  constructor
  · intro t ht hne hfound
    subst ht
    refine ⟨?_, ?_, ?_⟩
    · simp [getOrCreateThread, jsTruthy, hne, hfound]
    · exact List.sorted_insertionSort msgCreatedLe _
    · exact List.perm_insertionSort msgCreatedLe _
  · intro h
    have hcond : ¬ ((jsTruthy tid && d.threads.any (fun r => r.id = tid.getD "")) = true) := by
      simp only [Bool.and_eq_true]
      exact h
    simp only [getOrCreateThread, hcond, if_false]
    rfl

/-- Witness for C4: a store holding thread `"t1"` with two messages recorded
out of creation order is answered with the history sorted ascending; an
unknown supplied identifier creates a thread row for the user. -/
theorem getOrCreateThread_store_witness :
    getOrCreateThread (some ⟨[⟨"t1", "u@x", none, 0, 0⟩],
        [⟨"i2", "t1", "assistant", "b", 2⟩, ⟨"i1", "t1", "user", "a", 1⟩]⟩) "F" 9
        (some "t1") "u@x"
      = (⟨"t1", [⟨"user", "a"⟩, ⟨"assistant", "b"⟩]⟩,
         some ⟨[⟨"t1", "u@x", none, 0, 0⟩],
           [⟨"i2", "t1", "assistant", "b", 2⟩, ⟨"i1", "t1", "user", "a", 1⟩]⟩)
    ∧ getOrCreateThread (some ⟨[⟨"t1", "u@x", none, 0, 0⟩], []⟩) "F" 9 (some "t9") "u@y"
      = (⟨"t9", []⟩,
         some ⟨[⟨"t1", "u@x", none, 0, 0⟩, ⟨"t9", "u@y", none, 9, 9⟩], []⟩) := by
  constructor
  · have h := ((getOrCreateThread_store ⟨[⟨"t1", "u@x", none, 0, 0⟩],
      [⟨"i2", "t1", "assistant", "b", 2⟩, ⟨"i1", "t1", "user", "a", 1⟩]⟩ "F" 9
      (some "t1") "u@x").1 "t1" rfl (by decide) (by decide)).1
    rw [h]
    rfl
  · have h := (getOrCreateThread_store ⟨[⟨"t1", "u@x", none, 0, 0⟩], []⟩ "F" 9
      (some "t9") "u@y").2 (by decide)
    rw [h]
    rfl

/-! ### Claim C8 -/

/-- Claim C8: past authentication, with the store available and a non-empty
`userEmail` query value, the thread-listing route answers with the projection
of the selected rows, the selection holds at most `limit` rows (20 when no
limit was supplied), every selected row belongs to the given user, and the
rows are ordered by descending (non-increasing) last-updated time. -/
theorem listThreads_bounded_owned_ordered (secret header : Option String) (d : Db)
    (u : String) (limit : Option Nat)
    (hauth : authenticateRequest secret header = .allowed)
    (hu : u ≠ "") :
    listThreadsHandler secret header (some d) (some u) limit
      = .ok ((selectThreadsForUser d u (limit.getD 20)).map
          (fun t => ⟨t.id, t.title, t.created_at, t.updated_at⟩))
    ∧ (selectThreadsForUser d u (limit.getD 20)).length ≤ limit.getD 20
    ∧ (∀ t ∈ selectThreadsForUser d u (limit.getD 20), t.user_email = u)
    ∧ (selectThreadsForUser d u (limit.getD 20)).Pairwise
        (fun a b => b.updated_at ≤ a.updated_at) := by
  refine ⟨?_, ?_, ?_, ?_⟩
  · simp [listThreadsHandler, hauth, jsTruthy, hu]
  · simp only [selectThreadsForUser]
    exact List.length_take_le _ _
  · intro t htmem
    simp only [selectThreadsForUser] at htmem
    have h1 := List.mem_of_mem_take htmem
    have h2 := (List.Perm.mem_iff (List.perm_insertionSort threadUpdatedDesc _)).mp h1
    exact of_decide_eq_true (List.mem_filter.mp h2).2
  · simp only [selectThreadsForUser]
    exact List.Pairwise.sublist (List.take_sublist _ _)
      (List.sorted_insertionSort threadUpdatedDesc _)

/-- Witness for C8: three threads of one user plus one of another, limit 2,
are answered with the two most recently updated threads of the user. -/
theorem listThreads_bounded_owned_ordered_witness :
    listThreadsHandler (some "k") (some "k")
        (some ⟨[⟨"a", "u@x", none, 0, 3⟩, ⟨"b", "u@y", none, 0, 9⟩,
                ⟨"c", "u@x", none, 0, 7⟩, ⟨"e", "u@x", none, 0, 5⟩], []⟩)
        (some "u@x") (some 2)
      = .ok [⟨"c", none, 0, 7⟩, ⟨"e", none, 0, 5⟩] := by
  have h := (listThreads_bounded_owned_ordered (some "k") (some "k")
    ⟨[⟨"a", "u@x", none, 0, 3⟩, ⟨"b", "u@y", none, 0, 9⟩,
      ⟨"c", "u@x", none, 0, 7⟩, ⟨"e", "u@x", none, 0, 5⟩], []⟩
    "u@x" (some 2) rfl (by decide)).1
  rw [h]
  rfl

end BoGateway
